import Mathlib

/-!
Verification development for the solar-leads scoring system.

Shallow embedding of `src/lead_scoring.py` (`LeadScoringEngine`),
`src/bill_estimator.py` (`BillEstimator`) and `src/roof_analyzer.py`
(`RoofAnalyzer`).  Python dictionaries with optional keys are embedded as
structures of `Option` fields; a parameter that may be `None` (or an empty,
falsy dictionary) is an `Option` of the structure.  Python floats are
embedded as `ℚ`; Python 3 `round` (banker's rounding) is `pyRound`.
`datetime.now().year` is an explicit `currentYear` parameter.  Output
fields that do not affect any score (log messages, recommendation texts,
timestamps) are not carried.
-/

namespace SolarLeads

/-- Property record (`property_data` dictionary). -/
structure PropertyData where
  propertyId : Option String := none
  squareFootage : Option ℚ := none
  yearBuilt : Option ℚ := none
  bedrooms : Option ℚ := none
  zipCode : Option String := none
  isOwnerOccupied : Option Bool := none
  propertyType : Option String := none
  propertyValue : Option ℚ := none
  hasSolarPermit : Option Bool := none
deriving DecidableEq

/-- Utility record (`utility_data` dictionary). -/
structure UtilityData where
  estimatedMonthlyBill : Option ℚ := none
  residential : Option ℚ := none
  netMeteringAvailable : Option Bool := none
deriving DecidableEq

/-- Roof record (`roof_data` dictionary). -/
structure RoofData where
  overallScore : Option ℚ := none
  azimuth : Option ℚ := none
  primaryOrientation : Option String := none
  usableRoofArea : Option ℚ := none
  totalRoofArea : Option ℚ := none
  shadingPercentage : Option ℚ := none
  pitch : Option ℚ := none
  roofCondition : Option String := none
  roofAge : Option ℚ := none
deriving DecidableEq

/-- Homeowner record (`owner_data` dictionary). -/
structure OwnerData where
  phone : Option String := none
  email : Option String := none
  doNotCall : Option Bool := none
  ownershipYears : Option ℚ := none
deriving DecidableEq

/-- A property record with every key absent. -/
def emptyProperty : PropertyData := {}

/-- Python `str.lower()`, character by character (structural form so that
concrete instances reduce). -/
def strLower (s : String) : String := ⟨s.data.map Char.toLower⟩

/-- Python `s.startswith(q)`, character by character. -/
def strStartsWith (s q : String) : Bool := q.data.isPrefixOf s.data

/-- Python 3 `round` to an integer: round half to even. -/
def pyRound (q : ℚ) : ℤ :=
  let f := ⌊q⌋
  let r := q - f
  if r < 1/2 then f
  else if 1/2 < r then f + 1
  else if f % 2 = 0 then f else f + 1

/-! ### LeadScoringEngine configuration (`LeadScoringEngine.__init__`) -/

/-- `self.weights` of `LeadScoringEngine`. -/
structure LSWeights where
  billSize : ℚ
  roofSuitability : ℚ
  propertyValue : ℚ
  netMetering : ℚ
  homeowner : ℚ
deriving DecidableEq

/-- `self.thresholds` of `LeadScoringEngine`. -/
structure LSThresholds where
  excellent : ℚ
  good : ℚ
  average : ℚ
  poor : ℚ
  unsuitable : ℚ
deriving DecidableEq

/-- `self.min_requirements` of `LeadScoringEngine`. -/
structure LSMinReq where
  monthlyBill : ℚ
  roofScore : ℚ
deriving DecidableEq

/-- Full engine configuration. -/
structure LSConfig where
  weights : LSWeights
  thresholds : LSThresholds
  minRequirements : LSMinReq
deriving DecidableEq

/-- The hard-coded defaults of `LeadScoringEngine.__init__`. -/
def defaultLSConfig : LSConfig :=
  { weights := { billSize := 0.30, roofSuitability := 0.25, propertyValue := 0.15,
                 netMetering := 0.20, homeowner := 0.10 }
    thresholds := { excellent := 80, good := 65, average := 50, poor := 35, unsuitable := 0 }
    minRequirements := { monthlyBill := 120, roofScore := 30 } }

/-! ### LeadScoringEngine component scores -/

/-- The bill fallback of `calculate_bill_score` when no utility estimate is
present: `square_footage * 0.10` if the key exists, else `0`. -/
def billFallback (prop : PropertyData) : ℚ :=
  match prop.squareFootage with
  | some s => s * 0.10
  | none => 0

/-- `LeadScoringEngine.calculate_bill_score`. -/
def calculateBillScore (prop : PropertyData) (util : Option UtilityData) : ℚ :=
  let monthlyBill : ℚ :=
    match util with
    | some u =>
      match u.estimatedMonthlyBill with
      | some b => b
      | none => billFallback prop
    | none => billFallback prop
  if monthlyBill < 120 then 0
  else if monthlyBill ≥ 300 then 100
  else if monthlyBill ≥ 200 then 80 + (monthlyBill - 200) * 20 / 100
  else 50 + (monthlyBill - 120) * 30 / 80

/-- The `orientation_scores` dictionary (identical in `lead_scoring.py` and
`roof_analyzer.py`), with default value 50. -/
def orientationLookup (o : String) : ℚ :=
  if o = "S" then 100
  else if o = "SE" then 90
  else if o = "SW" then 90
  else if o = "E" then 70
  else if o = "W" then 70
  else if o = "NE" then 40
  else if o = "NW" then 40
  else if o = "N" then 20
  else 50

/-- The `condition_scores` dictionary (identical in `lead_scoring.py` and
`roof_analyzer.py`), with default value 50. -/
def conditionLookup (c : String) : ℚ :=
  if c = "excellent" then 100
  else if c = "good" then 80
  else if c = "fair" then 60
  else if c = "poor" then 30
  else if c = "very poor" then 10
  else 50

/-- The `score += orientation_score * 0.4` block of `calculate_roof_score`
(0 when the key is absent). -/
def roofOrientationTerm (rd : RoofData) : ℚ :=
  match rd.primaryOrientation with
  | some o => orientationLookup o * 0.4
  | none => 0

/-- The `score += area_score * 0.3` block of `calculate_roof_score`. -/
def roofAreaTerm (rd : RoofData) : ℚ :=
  match rd.usableRoofArea with
  | some a =>
    (if a < 400 then (0 : ℚ)
     else if a ≥ 1200 then 100
     else 50 + (a - 400) * 50 / 800) * 0.3
  | none => 0

/-- The `score += shading_score * 0.2` block of `calculate_roof_score`. -/
def roofShadingTerm (rd : RoofData) : ℚ :=
  match rd.shadingPercentage with
  | some p => (if p > 40 then (0 : ℚ) else 100 - p / 40 * 100) * 0.2
  | none => 0

/-- The `score += condition_score * 0.1` block of `calculate_roof_score`. -/
def roofConditionTerm (rd : RoofData) : ℚ :=
  match rd.roofCondition with
  | some c => conditionLookup (strLower c) * 0.1
  | none => 0

/-- `LeadScoringEngine.calculate_roof_score`. -/
def calculateRoofScore (prop : PropertyData) (roof : Option RoofData) : ℚ :=
  match roof with
  | none => 50
  | some rd =>
    match rd.overallScore with
    | some pre => pre
    | none =>
      roofOrientationTerm rd + roofAreaTerm rd + roofShadingTerm rd + roofConditionTerm rd

/-- The 5-tier assessed-value curve of `calculate_property_score`. -/
def propertyValueScore (v : ℚ) : ℚ :=
  if v ≥ 500000 then 100
  else if v ≥ 300000 then 80
  else if v ≥ 200000 then 60
  else if v ≥ 100000 then 40
  else 20

/-- The property-type block of `calculate_property_score`. -/
def propertyTypeTerm (prop : PropertyData) : ℚ :=
  match prop.propertyType with
  | some t =>
    if t = "Single-Family" then (100 : ℚ) * 0.3
    else if t = "Multi-Family" then 50 * 0.3
    else 0 * 0.3
  | none => 0

/-- The property-value block of `calculate_property_score`. -/
def propertyValueTerm (prop : PropertyData) : ℚ :=
  match prop.propertyValue with
  | some v => propertyValueScore v * 0.2
  | none => 0

/-- `calculate_property_score` after the owner-occupancy gate: `base` is the
score accumulated by that gate (40 when owner-occupied, 0 when the key is
absent). -/
def propertyScoreRest (prop : PropertyData) (base : ℚ) : ℚ :=
  let s1 := base + propertyTypeTerm prop
  let s2 := s1 + propertyValueTerm prop
  match prop.hasSolarPermit with
  | some true => 0
  | some false => s2 + 100 * 0.1
  | none => s2

/-- `LeadScoringEngine.calculate_property_score`. -/
def calculatePropertyScore (prop : PropertyData) : ℚ :=
  match prop.isOwnerOccupied with
  | some true => propertyScoreRest prop (100 * 0.4)
  | some false => 0
  | none => propertyScoreRest prop 0

/-- The 5-tier rate curve of `calculate_net_metering_score`. -/
def rateLookup (r : ℚ) : ℚ :=
  if r ≥ 0.14 then 100
  else if r ≥ 0.12 then 80
  else if r ≥ 0.10 then 60
  else if r ≥ 0.08 then 40
  else 20

/-- The net-metering-availability block of `calculate_net_metering_score`. -/
def meteringAvailTerm (u : UtilityData) : ℚ :=
  match u.netMeteringAvailable with
  | some true => 100 * 0.6
  | some false => 30 * 0.6
  | none => 0

/-- The utility-rate block of `calculate_net_metering_score`. -/
def meteringRateTerm (u : UtilityData) : ℚ :=
  match u.residential with
  | some r => rateLookup r * 0.4
  | none => 0

/-- `LeadScoringEngine.calculate_net_metering_score`. -/
def calculateNetMeteringScore (prop : PropertyData) (util : Option UtilityData) : ℚ :=
  match util with
  | none => 50
  | some u => meteringAvailTerm u + meteringRateTerm u

/-- The 4-tier ownership-length curve of `calculate_homeowner_score`. -/
def ownershipLookup (y : ℚ) : ℚ :=
  if y ≥ 5 then 100
  else if y ≥ 3 then 80
  else if y ≥ 1 then 60
  else 40

/-- The contact-information block of `calculate_homeowner_score`.  A
phone/email key counts only when its value is truthy (a non-empty string). -/
def contactTerm (od : OwnerData) : ℚ :=
  let hasPhone : Bool := match od.phone with | some s => !s.isEmpty | none => false
  let hasEmail : Bool := match od.email with | some s => !s.isEmpty | none => false
  (if hasPhone && hasEmail then (100 : ℚ)
   else if hasPhone then 70
   else if hasEmail then 60
   else 0) * 0.4

/-- The do-not-call block of `calculate_homeowner_score`. -/
def doNotCallTerm (od : OwnerData) : ℚ :=
  match od.doNotCall with
  | some true => 0 * 0.3
  | some false => 100 * 0.3
  | none => 0

/-- The ownership-length block of `calculate_homeowner_score`. -/
def ownershipTerm (od : OwnerData) : ℚ :=
  match od.ownershipYears with
  | some y => ownershipLookup y * 0.3
  | none => 0

/-- `LeadScoringEngine.calculate_homeowner_score`. -/
def calculateHomeownerScore (prop : PropertyData) (owner : Option OwnerData) : ℚ :=
  match owner with
  | none => 50
  | some od => contactTerm od + doNotCallTerm od + ownershipTerm od

/-! ### LeadScoringEngine.calculate_overall_score -/

/-- The dictionary `calculate_overall_score` returns on its normal path
(score fields only; the `weights` echo and the timestamp are not carried). -/
structure ScoreData where
  propertyId : String
  overallScore : ℤ
  qualification : String
  disqualified : Bool
  disqualificationReason : Option String
  billScore : ℤ
  roofScore : ℤ
  propertyScore : ℤ
  meteringScore : ℤ
  homeownerScore : ℤ
deriving DecidableEq

/-- The qualification ladder of `calculate_overall_score`, applied to the
unrounded overall score. -/
def qualificationOf (th : LSThresholds) (s : ℚ) : String :=
  if s ≥ th.excellent then "excellent"
  else if s ≥ th.good then "good"
  else if s ≥ th.average then "average"
  else if s ≥ th.poor then "poor"
  else "unsuitable"

/-- The normal-path computation of `calculate_overall_score` (the body of its
`try` block). -/
def mkScoreData (cfg : LSConfig) (prop : PropertyData) (util : Option UtilityData)
    (roof : Option RoofData) (owner : Option OwnerData) : ScoreData :=
  let billScore := calculateBillScore prop util
  let roofScore := calculateRoofScore prop roof
  let propertyScore := calculatePropertyScore prop
  let meteringScore := calculateNetMeteringScore prop util
  let homeownerScore := calculateHomeownerScore prop owner
  let dq : Bool × Option String :=
    if billScore < cfg.minRequirements.monthlyBill then
      (true, some "Monthly bill below minimum threshold")
    else if roofScore < cfg.minRequirements.roofScore then
      (true, some "Roof unsuitable for solar installation")
    else (false, none)
  let overall : ℚ :=
    if dq.1 then 0
    else
      billScore * cfg.weights.billSize +
      roofScore * cfg.weights.roofSuitability +
      propertyScore * cfg.weights.propertyValue +
      meteringScore * cfg.weights.netMetering +
      homeownerScore * cfg.weights.homeowner
  { propertyId := prop.propertyId.getD "unknown"
    overallScore := pyRound overall
    qualification := qualificationOf cfg.thresholds overall
    disqualified := dq.1
    disqualificationReason := dq.2
    billScore := pyRound billScore
    roofScore := pyRound roofScore
    propertyScore := pyRound propertyScore
    meteringScore := pyRound meteringScore
    homeownerScore := pyRound homeownerScore }

/-- What `calculate_overall_score` hands back to its caller: the normal-path
dictionary, or the error dictionary built by its `except` clause. -/
inductive LeadResult
  | success (d : ScoreData)
  | failure (propertyId : String) (overallScore : ℤ) (qualification : String) (errMsg : String)
deriving DecidableEq

/-- The fallible body of `calculate_overall_score` (everything inside `try`).
In this typed embedding every dictionary access is well-typed, so the body
always succeeds; the `Except` form records where the code may raise. -/
def calculateOverallScoreBody (cfg : LSConfig) (prop : PropertyData)
    (util : Option UtilityData) (roof : Option RoofData) (owner : Option OwnerData) :
    Except String ScoreData :=
  Except.ok (mkScoreData cfg prop util roof owner)

/-- `LeadScoringEngine.calculate_overall_score`: run the body, and on an
exception return the error dictionary `{overall_score: 0, qualification:
"error", error: str(e)}`. -/
def calculateOverallScore (cfg : LSConfig) (prop : PropertyData)
    (util : Option UtilityData) (roof : Option RoofData) (owner : Option OwnerData) :
    LeadResult :=
  match calculateOverallScoreBody cfg prop util roof owner with
  | Except.ok d => LeadResult.success d
  | Except.error e => LeadResult.failure (prop.propertyId.getD "unknown") 0 "error" e

/-! ### BillEstimator (`src/bill_estimator.py`), default configuration -/

/-- `self.monthly_factors` of `BillEstimator.__init__` (keys 1..12, `.get`
default 1.0). -/
def monthFactorTable (m : ℤ) : ℚ :=
  if m = 1 then 0.85
  else if m = 2 then 0.80
  else if m = 3 then 0.75
  else if m = 4 then 0.80
  else if m = 5 then 1.00
  else if m = 6 then 1.30
  else if m = 7 then 1.50
  else if m = 8 then 1.50
  else if m = 9 then 1.20
  else if m = 10 then 0.90
  else if m = 11 then 0.75
  else if m = 12 then 0.85
  else 1.0

/-- The seasonal factor of `estimate_monthly_bill`: 1.0 unless a month in
1..12 is given. -/
def monthFactor (month : Option ℤ) : ℚ :=
  match month with
  | some m => if 1 ≤ m ∧ m ≤ 12 then monthFactorTable m else 1.0
  | none => 1.0

/-- ZIP prefixes of the `north` climate zone. -/
def northZips : List String :=
  ["750", "751", "752", "753", "754", "755", "756", "757", "758", "759",
   "760", "761", "762", "763", "764", "765", "766", "767"]

/-- ZIP prefixes of the `central` climate zone. -/
def centralZips : List String :=
  ["768", "769", "770", "771", "772", "773", "774", "775", "776", "777",
   "778", "779", "780", "781", "782", "783", "784", "785"]

/-- ZIP prefixes of the `south` climate zone. -/
def southZips : List String :=
  ["786", "787", "788", "789", "790", "791", "792", "793", "794", "795",
   "796", "797", "798", "799"]

/-- `self.climate_zones`, in the iteration order of the source dictionary:
north (1.0), central (1.05), south (1.15). -/
def climateZones : List (ℚ × List String) :=
  [(1.0, northZips), (1.05, centralZips), (1.15, southZips)]

/-- The climate-zone loop of `estimate_monthly_bill`: every zone whose
list holds a matching ZIP prefix overwrites `climate_factor` (the inner
`break` leaves the outer loop running, so the last matching zone wins);
default 1.0. -/
def climateFactor (zip : String) : ℚ :=
  climateZones.foldl
    (fun acc z => if z.2.any (fun p => strStartsWith zip p) then z.1 else acc) 1.0

/-- The home-age factor of `estimate_monthly_bill`, with the current year an
explicit parameter standing for `datetime.now().year`. -/
def ageFactor (currentYear yearBuilt : ℚ) : ℚ :=
  if yearBuilt > 0 then
    let age := currentYear - yearBuilt
    if age ≤ 5 then 0.85
    else if age ≤ 15 then 0.9
    else if age ≤ 30 then 1.0
    else if age ≤ 50 then 1.1
    else 1.2
  else 1.0

/-- The bedroom factor of `estimate_monthly_bill`. -/
def bedroomFactor (b : ℚ) : ℚ :=
  if b ≤ 1 then 0.7
  else if b = 2 then 0.85
  else if b = 3 then 1.0
  else if b = 4 then 1.15
  else 1.25

/-- The coarse tier base consumption (`self.base_consumption` selected by the
first `if` ladder of `estimate_monthly_bill`). -/
def baseConsumptionOf (s : ℚ) : ℚ :=
  if s < 1200 then 700
  else if s < 2500 then 1000
  else if s < 3500 then 1300
  else 1600

/-- Base usage as a function of square footage: the tier base refined by
linear interpolation when `square_footage > 0` (the fine-tuning block of
`estimate_monthly_bill`). -/
def baseUsage (s : ℚ) : ℚ :=
  if s > 0 then
    match
      (if s < 1200 then ((800 : ℚ), (1200 : ℚ), 700 * 0.8, (700 : ℚ))
       else if s < 2500 then (1200, 2500, 1000 * 0.8, 1000 * 1.2)
       else if s < 3500 then (2500, 3500, 1300 * 0.8, 1300 * 1.2)
       else (3500, 5000, 1600 * 0.8, 1600 * 1.3)) with
    | (minSqft, maxSqft, minUsage, maxUsage) =>
      minUsage + (s - minSqft) / (maxSqft - minSqft) * (maxUsage - minUsage)
  else baseConsumptionOf s

/-- The electricity rate `estimate_monthly_bill` uses: the `residential` key
when the utility record is truthy and has it, else the 0.12 national
average. -/
def effectiveRate (util : Option UtilityData) : ℚ :=
  match util with
  | some u =>
    match u.residential with
    | some r => r
    | none => 0.12
  | none => 0.12

/-- The fallible body of `estimate_monthly_bill` (everything inside `try`).
In this typed embedding the body always succeeds; the `Except` form records
where the code may raise. -/
def estimateMonthlyBillBody (currentYear : ℚ) (prop : PropertyData)
    (util : Option UtilityData) (month : Option ℤ) : Except String ℚ :=
  let s := prop.squareFootage.getD 0
  let yb := prop.yearBuilt.getD 2000
  let bd := prop.bedrooms.getD 3
  let zip := prop.zipCode.getD ""
  let rate := effectiveRate util
  let estimatedUsage :=
    baseUsage s * ageFactor currentYear yb * bedroomFactor bd *
      climateFactor zip * monthFactor month
  Except.ok (estimatedUsage * rate)

/-- `BillEstimator.estimate_monthly_bill`: run the body, and on an exception
return 0. -/
def estimateMonthlyBill (currentYear : ℚ) (prop : PropertyData)
    (util : Option UtilityData) (month : Option ℤ) : ℚ :=
  match estimateMonthlyBillBody currentYear prop util month with
  | Except.ok v => v
  | Except.error _ => 0

/-- The size tier `estimate_monthly_bill` places a square footage in
(small, medium, large, very large). -/
def sizeTier (s : ℚ) : ℕ :=
  if s < 1200 then 0
  else if s < 2500 then 1
  else if s < 3500 then 2
  else 3

/-! ### RoofAnalyzer (`src/roof_analyzer.py`), default configuration -/

/-- `RoofAnalyzer.calculate_orientation_score`: azimuth deviation from the
optimal 180° when an azimuth is given, else the cardinal lookup, else 50. -/
def roofOrientationScore (rd : RoofData) : ℚ :=
  match rd.azimuth with
  | some az =>
    let dev0 := |az - 180|
    let dev := if dev0 > 180 then 360 - dev0 else dev0
    100 - dev / 180 * 100
  | none =>
    match rd.primaryOrientation with
    | some o => orientationLookup o
    | none => 50

/-- `RoofAnalyzer.calculate_area_score` (default minimum usable area 400). -/
def roofAreaScore (rd : RoofData) : ℚ :=
  match rd.usableRoofArea with
  | some a =>
    if a < 400 then 0
    else if a ≥ 1200 then 100
    else if a ≥ 800 then 80 + (a - 800) * 20 / 400
    else 50 + (a - 400) * 30 / (800 - 400)
  | none =>
    match rd.totalRoofArea with
    | some t =>
      let est := t * 0.6
      if est < 400 then 0
      else if est ≥ 1200 then 100
      else if est ≥ 800 then 80 + (est - 800) * 20 / 400
      else 50 + (est - 400) * 30 / (800 - 400)
    | none => 0

/-- `RoofAnalyzer.calculate_shading_score` (default maximum shading 40). -/
def roofShadingScore (rd : RoofData) : ℚ :=
  match rd.shadingPercentage with
  | some p => if p > 40 then 0 else 100 - p / 40 * 100
  | none => 50

/-- `RoofAnalyzer.calculate_pitch_score` (default optimal pitch 25). -/
def roofPitchScore (rd : RoofData) : ℚ :=
  match rd.pitch with
  | some p =>
    let dev := |p - 25|
    if dev ≥ 30 then 0 else 100 - dev / 30 * 100
  | none => 50

/-- `RoofAnalyzer.calculate_condition_score`. -/
def roofConditionScore (rd : RoofData) : ℚ :=
  match rd.roofCondition with
  | some c => conditionLookup (strLower c)
  | none =>
    match rd.roofAge with
    | some a =>
      if a ≤ 2 then 100
      else if a ≤ 5 then 90
      else if a ≤ 10 then 75
      else if a ≤ 15 then 60
      else if a ≤ 20 then 40
      else 20
    | none => 50

/-- The rounded component scores in the dictionary `analyze_roof_suitability`
returns. -/
structure RoofComponents where
  orientationScore : ℤ
  areaScore : ℤ
  shadingScore : ℤ
  pitchScore : ℤ
  conditionScore : ℤ
deriving DecidableEq

/-- The dictionary `analyze_roof_suitability` returns.  The no-data reply
`{overall_score: 0, message: ...}` has no suitability and no component
scores (recommendations and the timestamp are not carried). -/
structure RoofResult where
  overallScore : ℤ
  suitability : Option String
  message : Option String
  components : Option RoofComponents
deriving DecidableEq

/-- `RoofAnalyzer.analyze_roof_suitability` (its `try` body never raises in
this typed embedding). -/
def analyzeRoofSuitability (roof : Option RoofData) : RoofResult :=
  match roof with
  | none =>
    { overallScore := 0, suitability := none,
      message := some "No roof data available", components := none }
  | some rd =>
    let oS := roofOrientationScore rd
    let aS := roofAreaScore rd
    let sS := roofShadingScore rd
    let pS := roofPitchScore rd
    let cS := roofConditionScore rd
    let overallSuit : ℚ × String × String :=
      if aS = 0 ∨ sS = 0 then
        (0, "unsuitable", "Roof does not meet minimum requirements for solar installation")
      else
        let ov := oS * 0.35 + aS * 0.25 + sS * 0.20 + pS * 0.10 + cS * 0.10
        if ov ≥ 80 then (ov, "excellent", "Roof is excellent for solar installation")
        else if ov ≥ 65 then (ov, "good", "Roof is well-suited for solar installation")
        else if ov ≥ 50 then (ov, "average", "Roof is acceptable for solar installation")
        else if ov ≥ 35 then (ov, "poor", "Roof has significant limitations for solar installation")
        else (ov, "unsuitable", "Roof is not recommended for solar installation")
    { overallScore := pyRound overallSuit.1
      suitability := some overallSuit.2.1
      message := some overallSuit.2.2
      components := some ⟨pyRound oS, pyRound aS, pyRound sS, pyRound pS, pyRound cS⟩ }

/-! ### Continuity language for the base-usage curve -/

/-- `f` is left-continuous at `b`: values just below `b` come arbitrarily
close to `f b`. -/
def leftContinuousAt (f : ℚ → ℚ) (b : ℚ) : Prop :=
  ∀ ε : ℚ, 0 < ε → ∃ δ : ℚ, 0 < δ ∧ ∀ s : ℚ, b - δ < s → s < b → |f s - f b| < ε

/-- `f` jumps by at least `g` at `b` from the left: on a whole left
neighbourhood of `b` the values stay at distance `g` or more from `f b`. -/
def leftJumpAtLeast (f : ℚ → ℚ) (b g : ℚ) : Prop :=
  ∃ δ : ℚ, 0 < δ ∧ ∀ s : ℚ, b - δ < s → s < b → g ≤ |f s - f b|

/-! ### Concrete records used by the claims -/

/-- Utility record reporting a $119 estimated monthly bill. -/
def util119 : UtilityData := { estimatedMonthlyBill := some 119 }

/-- Utility record reporting a $120 estimated monthly bill. -/
def util120 : UtilityData := { estimatedMonthlyBill := some 120 }

/-- Roof record carrying a pre-computed overall score of 150. -/
def roof150 : RoofData := { overallScore := some 150 }

/-- Roof record carrying a pre-computed overall score of 0. -/
def roofZero : RoofData := { overallScore := some 0 }

/-- A truthy utility dictionary with none of the recognised keys. -/
def blankUtility : UtilityData := {}

/-- A truthy owner dictionary with none of the recognised keys. -/
def blankOwner : OwnerData := {}

/-- An engine configuration with the default weights and thresholds but both
minimum requirements set to 0. -/
def zeroMinConfig : LSConfig :=
  { defaultLSConfig with minRequirements := { monthlyBill := 0, roofScore := 0 } }

/-- The property of the end-to-end bill scenario. -/
def prop5 : PropertyData :=
  { squareFootage := some 2000, yearBuilt := some 2015, bedrooms := some 3,
    zipCode := some "78701" }

/-- The utility record of the end-to-end bill scenario. -/
def util5 : UtilityData := { residential := some 0.12 }

/-- The roof of the end-to-end roof scenario. -/
def roof6 : RoofData :=
  { usableRoofArea := some 1000, primaryOrientation := some "S",
    shadingPercentage := some 5, pitch := some 25, roofCondition := some "good" }

/-- A roof with 399 sq ft of usable area and arbitrary other fields. -/
def roof399 : RoofData :=
  { usableRoofArea := some 399, primaryOrientation := some "S",
    shadingPercentage := some 5, pitch := some 25, roofCondition := some "excellent" }

/-- A roof with exactly 1200 sq ft of usable area. -/
def roof1200 : RoofData := { usableRoofArea := some 1200 }

/-- The property of the monotonicity counterexample with the 0 sq ft default
left explicit, and a year built of 0 so the age factor is the 1.0 default. -/
def prop9a : PropertyData := { squareFootage := some 0, yearBuilt := some 0 }

/-- The 600 sq ft variant of `prop9a`. -/
def prop9b : PropertyData := { squareFootage := some 600, yearBuilt := some 0 }

/-- Side condition under which the roof component of the lead score stays in
[0,100]: a pre-computed roof score, when given, already lies in [0,100], and
otherwise a shading percentage, when given, is not negative. -/
def roofInputOk : Option RoofData → Bool
  | none => true
  | some rd =>
    match rd.overallScore with
    | some pre => decide (0 ≤ pre) && decide (pre ≤ 100)
    | none =>
      match rd.shadingPercentage with
      | some p => decide (0 ≤ p)
      | none => true

/-! ### Helper lemmas -/

/-- Rounding 0 gives 0. -/
lemma pyRound_zero : pyRound 0 = 0 := by norm_num [pyRound]

/-- Banker's rounding keeps a rational of [0,100] inside [0,100]. -/
lemma pyRound_mem (q : ℚ) (h0 : 0 ≤ q) (h1 : q ≤ 100) :
    0 ≤ pyRound q ∧ pyRound q ≤ 100 := by
  have hf0 : (0 : ℤ) ≤ ⌊q⌋ := Int.le_floor.mpr (by exact_mod_cast h0)
  have hf1 : ⌊q⌋ ≤ 100 := by
    have := Int.floor_le_floor h1
    simpa using this
  have hfq : (⌊q⌋ : ℚ) ≤ q := Int.floor_le q
  have hstep : 1/2 ≤ q - ⌊q⌋ → ⌊q⌋ + 1 ≤ 100 := by
    intro hr
    have : (⌊q⌋ : ℚ) ≤ 199/2 := by linarith
    have : ⌊q⌋ ≤ 99 := by
      have h99 : ⌊q⌋ ≤ ⌊(199/2 : ℚ)⌋ := Int.le_floor.mpr this
      have : ⌊(199/2 : ℚ)⌋ = 99 := by norm_num
      omega
    omega
  simp only [pyRound]
  split_ifs with h1' h2' h3'
  · exact ⟨hf0, hf1⟩
  · exact ⟨by omega, hstep (le_of_lt h2')⟩
  · exact ⟨hf0, hf1⟩
  · have hr : 1/2 ≤ q - ⌊q⌋ := by linarith
    exact ⟨by omega, hstep hr⟩

/-- The bill component score never exceeds 100. -/
lemma calculateBillScore_le_100 (p : PropertyData) (u : Option UtilityData) :
    calculateBillScore p u ≤ 100 := by
  simp only [calculateBillScore]
  split_ifs <;> linarith

/-- The bill component score is never negative. -/
lemma calculateBillScore_nonneg (p : PropertyData) (u : Option UtilityData) :
    0 ≤ calculateBillScore p u := by
  simp only [calculateBillScore]
  split_ifs <;> linarith

/-- With the default configuration the bill score (at most 100) always falls
below the 120 minimum-bill requirement, so every lead is disqualified with
overall score 0. -/
lemma mkScoreData_default_disqualified (p : PropertyData) (u : Option UtilityData)
    (r : Option RoofData) (o : Option OwnerData) :
    (mkScoreData defaultLSConfig p u r o).disqualified = true ∧
    (mkScoreData defaultLSConfig p u r o).overallScore = 0 := by
  have hb : calculateBillScore p u < defaultLSConfig.minRequirements.monthlyBill := by
    have := calculateBillScore_le_100 p u
    simp only [defaultLSConfig]
    linarith
  simp only [mkScoreData, if_pos hb, if_true, pyRound_zero]
  exact ⟨trivial, trivial⟩

/-- Range of the orientation lookup (50 when the key is unknown). -/
lemma orientationLookup_mem (o : String) :
    20 ≤ orientationLookup o ∧ orientationLookup o ≤ 100 := by
  simp only [orientationLookup]; split_ifs <;> norm_num

/-- Range of the condition lookup. -/
lemma conditionLookup_mem (c : String) :
    10 ≤ conditionLookup c ∧ conditionLookup c ≤ 100 := by
  simp only [conditionLookup]; split_ifs <;> norm_num

/-- Range of the assessed-value curve. -/
lemma propertyValueScore_mem (v : ℚ) :
    20 ≤ propertyValueScore v ∧ propertyValueScore v ≤ 100 := by
  simp only [propertyValueScore]; split_ifs <;> norm_num

/-- Range of the rate curve. -/
lemma rateLookup_mem (r : ℚ) : 20 ≤ rateLookup r ∧ rateLookup r ≤ 100 := by
  simp only [rateLookup]; split_ifs <;> norm_num

/-- Range of the ownership-length curve. -/
lemma ownershipLookup_mem (y : ℚ) :
    40 ≤ ownershipLookup y ∧ ownershipLookup y ≤ 100 := by
  simp only [ownershipLookup]; split_ifs <;> norm_num

/-- The orientation contribution to the roof score stays in [0,40]. -/
lemma roofOrientationTerm_mem (rd : RoofData) :
    0 ≤ roofOrientationTerm rd ∧ roofOrientationTerm rd ≤ 40 := by
  cases h : rd.primaryOrientation with
  | none => simp [roofOrientationTerm, h]
  | some o =>
    obtain ⟨h1, h2⟩ := orientationLookup_mem o
    simp only [roofOrientationTerm, h]
    constructor <;> linarith

/-- The area contribution to the roof score stays in [0,30]. -/
lemma roofAreaTerm_mem (rd : RoofData) :
    0 ≤ roofAreaTerm rd ∧ roofAreaTerm rd ≤ 30 := by
  cases h : rd.usableRoofArea with
  | none => simp [roofAreaTerm, h]
  | some a =>
    simp only [roofAreaTerm, h]
    split_ifs <;> constructor <;> linarith

/-- With a nonnegative shading percentage the shading contribution stays in
[0,20]. -/
lemma roofShadingTerm_mem (rd : RoofData)
    (h : ∀ p : ℚ, rd.shadingPercentage = some p → 0 ≤ p) :
    0 ≤ roofShadingTerm rd ∧ roofShadingTerm rd ≤ 20 := by
  cases hs : rd.shadingPercentage with
  | none => simp [roofShadingTerm, hs]
  | some p =>
    have hp := h p hs
    simp only [roofShadingTerm, hs]
    split_ifs with h40 <;> constructor <;> linarith

/-- The condition contribution to the roof score stays in [0,10]. -/
lemma roofConditionTerm_mem (rd : RoofData) :
    0 ≤ roofConditionTerm rd ∧ roofConditionTerm rd ≤ 10 := by
  cases h : rd.roofCondition with
  | none => simp [roofConditionTerm, h]
  | some c =>
    obtain ⟨h1, h2⟩ := conditionLookup_mem (strLower c)
    simp only [roofConditionTerm, h]
    constructor <;> linarith

/-- Under `roofInputOk` the roof component score stays in [0,100]. -/
lemma calculateRoofScore_mem (p : PropertyData) (r : Option RoofData)
    (h : roofInputOk r = true) :
    0 ≤ calculateRoofScore p r ∧ calculateRoofScore p r ≤ 100 := by
  match r with
  | none => constructor <;> norm_num [calculateRoofScore]
  | some rd =>
    match hpre : rd.overallScore with
    | some pre =>
      simp only [roofInputOk, hpre, Bool.and_eq_true, decide_eq_true_eq] at h
      simp only [calculateRoofScore, hpre]
      exact h
    | none =>
      simp only [roofInputOk, hpre] at h
      have hsh : ∀ q : ℚ, rd.shadingPercentage = some q → 0 ≤ q := by
        intro q hq
        rw [hq] at h
        simpa using h
      obtain ⟨o1, o2⟩ := roofOrientationTerm_mem rd
      obtain ⟨a1, a2⟩ := roofAreaTerm_mem rd
      obtain ⟨s1, s2⟩ := roofShadingTerm_mem rd hsh
      obtain ⟨c1, c2⟩ := roofConditionTerm_mem rd
      simp only [calculateRoofScore, hpre]
      constructor <;> linarith

/-- The property-type contribution stays in [0,30]. -/
lemma propertyTypeTerm_mem (p : PropertyData) :
    0 ≤ propertyTypeTerm p ∧ propertyTypeTerm p ≤ 30 := by
  cases h : p.propertyType with
  | none => simp [propertyTypeTerm, h]
  | some t =>
    simp only [propertyTypeTerm, h]
    split_ifs <;> constructor <;> norm_num

/-- The property-value contribution stays in [0,20]. -/
lemma propertyValueTerm_mem (p : PropertyData) :
    0 ≤ propertyValueTerm p ∧ propertyValueTerm p ≤ 20 := by
  cases h : p.propertyValue with
  | none => simp [propertyValueTerm, h]
  | some v =>
    obtain ⟨h1, h2⟩ := propertyValueScore_mem v
    simp only [propertyValueTerm, h]
    constructor <;> linarith

/-- The property component score stays in [0,100]. -/
lemma calculatePropertyScore_mem (p : PropertyData) :
    0 ≤ calculatePropertyScore p ∧ calculatePropertyScore p ≤ 100 := by
  obtain ⟨t1, t2⟩ := propertyTypeTerm_mem p
  obtain ⟨v1, v2⟩ := propertyValueTerm_mem p
  have hrest : ∀ b : ℚ, 0 ≤ b → b ≤ 40 →
      0 ≤ propertyScoreRest p b ∧ propertyScoreRest p b ≤ 100 := by
    intro b hb0 hb1
    simp only [propertyScoreRest]
    cases hsp : p.hasSolarPermit with
    | none => constructor <;> linarith
    | some perm => cases perm <;> simp only <;> constructor <;> linarith
  simp only [calculatePropertyScore]
  cases ho : p.isOwnerOccupied with
  | none => exact hrest 0 (by norm_num) (by norm_num)
  | some occ =>
    cases occ
    · simp
    · exact hrest (100 * 0.4) (by norm_num) (by norm_num)

/-- The availability contribution stays in [0,60]. -/
lemma meteringAvailTerm_mem (u : UtilityData) :
    0 ≤ meteringAvailTerm u ∧ meteringAvailTerm u ≤ 60 := by
  simp only [meteringAvailTerm]
  cases h : u.netMeteringAvailable with
  | none => norm_num
  | some b => cases b <;> norm_num

/-- The rate contribution stays in [0,40]. -/
lemma meteringRateTerm_mem (u : UtilityData) :
    0 ≤ meteringRateTerm u ∧ meteringRateTerm u ≤ 40 := by
  cases h : u.residential with
  | none => simp [meteringRateTerm, h]
  | some r =>
    obtain ⟨h1, h2⟩ := rateLookup_mem r
    simp only [meteringRateTerm, h]
    constructor <;> linarith

/-- The net-metering component score stays in [0,100]. -/
lemma calculateNetMeteringScore_mem (p : PropertyData) (u : Option UtilityData) :
    0 ≤ calculateNetMeteringScore p u ∧ calculateNetMeteringScore p u ≤ 100 := by
  match u with
  | none => constructor <;> norm_num [calculateNetMeteringScore]
  | some ud =>
    obtain ⟨a1, a2⟩ := meteringAvailTerm_mem ud
    obtain ⟨r1, r2⟩ := meteringRateTerm_mem ud
    simp only [calculateNetMeteringScore]
    constructor <;> linarith

/-- The contact contribution stays in [0,40]. -/
lemma contactTerm_mem (od : OwnerData) : 0 ≤ contactTerm od ∧ contactTerm od ≤ 40 := by
  simp only [contactTerm]
  split_ifs <;> norm_num

/-- The do-not-call contribution stays in [0,30]. -/
lemma doNotCallTerm_mem (od : OwnerData) :
    0 ≤ doNotCallTerm od ∧ doNotCallTerm od ≤ 30 := by
  simp only [doNotCallTerm]
  cases h : od.doNotCall with
  | none => norm_num
  | some b => cases b <;> norm_num

/-- The ownership-length contribution stays in [0,30]. -/
lemma ownershipTerm_mem (od : OwnerData) :
    0 ≤ ownershipTerm od ∧ ownershipTerm od ≤ 30 := by
  cases h : od.ownershipYears with
  | none => simp [ownershipTerm, h]
  | some y =>
    obtain ⟨h1, h2⟩ := ownershipLookup_mem y
    simp only [ownershipTerm, h]
    constructor <;> linarith

/-- The homeowner component score stays in [0,100]. -/
lemma calculateHomeownerScore_mem (p : PropertyData) (o : Option OwnerData) :
    0 ≤ calculateHomeownerScore p o ∧ calculateHomeownerScore p o ≤ 100 := by
  match o with
  | none => constructor <;> norm_num [calculateHomeownerScore]
  | some od =>
    obtain ⟨c1, c2⟩ := contactTerm_mem od
    obtain ⟨d1, d2⟩ := doNotCallTerm_mem od
    obtain ⟨y1, y2⟩ := ownershipTerm_mem od
    simp only [calculateHomeownerScore]
    constructor <;> linarith

/-- The returned component fields are the rounded raw component scores. -/
lemma mkScoreData_components (cfg : LSConfig) (p : PropertyData) (u : Option UtilityData)
    (r : Option RoofData) (o : Option OwnerData) :
    (mkScoreData cfg p u r o).billScore = pyRound (calculateBillScore p u) ∧
    (mkScoreData cfg p u r o).roofScore = pyRound (calculateRoofScore p r) ∧
    (mkScoreData cfg p u r o).propertyScore = pyRound (calculatePropertyScore p) ∧
    (mkScoreData cfg p u r o).meteringScore = pyRound (calculateNetMeteringScore p u) ∧
    (mkScoreData cfg p u r o).homeownerScore = pyRound (calculateHomeownerScore p o) :=
  ⟨rfl, rfl, rfl, rfl, rfl⟩

/-! ### The claims -/

/-- C1: with the default configuration, a $119 estimated monthly bill gives
overall score 0, qualification "unsuitable" and bill component 0 (this half
of the claim holds); a $120 bill gives bill component exactly 50, yet the
engine still reports disqualified = true with overall score 0, because
`calculate_overall_score` compares the 0–100 bill score against the $120
dollar threshold of `min_requirements`, contradicting the source comments
"$120 = 50 points (minimum qualifying)". -/
theorem claim_C1 :
    (mkScoreData defaultLSConfig emptyProperty (some util119) none none).overallScore = 0 ∧
    (mkScoreData defaultLSConfig emptyProperty (some util119) none none).qualification
      = "unsuitable" ∧
    (mkScoreData defaultLSConfig emptyProperty (some util119) none none).billScore = 0 ∧
    (mkScoreData defaultLSConfig emptyProperty (some util120) none none).billScore = 50 ∧
    (mkScoreData defaultLSConfig emptyProperty (some util120) none none).disqualified = true ∧
    (mkScoreData defaultLSConfig emptyProperty (some util120) none none).overallScore = 0 := by
  norm_num [mkScoreData, calculateBillScore, util119, util120, emptyProperty,
    defaultLSConfig, qualificationOf, pyRound]

/-- C2: with the default configuration, every run of `calculate_overall_score`
that stays on the normal (non-exception) path returns the normal-path record,
and that record always has disqualified = true and overall score 0: the bill
score is at most 100 and is compared against the 120 minimum-bill
threshold. -/
theorem claim_C2 (p : PropertyData) (u : Option UtilityData) (r : Option RoofData)
    (o : Option OwnerData) :
    calculateOverallScore defaultLSConfig p u r o =
      LeadResult.success (mkScoreData defaultLSConfig p u r o) ∧
    (mkScoreData defaultLSConfig p u r o).disqualified = true ∧
    (mkScoreData defaultLSConfig p u r o).overallScore = 0 :=
  ⟨rfl, mkScoreData_default_disqualified p u r o⟩

/-- C3 counterexample: a roof record with a pre-computed overall score of 150
flows through `calculate_roof_score` unclamped, so the returned roof
component exceeds 100. -/
theorem claim_C3_cex :
    100 < (mkScoreData defaultLSConfig emptyProperty none (some roof150) none).roofScore := by
  norm_num [mkScoreData, calculateRoofScore, roof150, pyRound]

/-- C3 (amended): every component score of the returned record lies in
[0,100], provided a pre-computed roof overall score, when present, already
lies in [0,100], and otherwise a present shading percentage is nonnegative
(`roofInputOk`); without that proviso the roof component is returned
unclamped. -/
theorem claim_C3 (p : PropertyData) (u : Option UtilityData) (r : Option RoofData)
    (o : Option OwnerData) (h : roofInputOk r = true) :
    (0 ≤ (mkScoreData defaultLSConfig p u r o).billScore ∧
      (mkScoreData defaultLSConfig p u r o).billScore ≤ 100) ∧
    (0 ≤ (mkScoreData defaultLSConfig p u r o).roofScore ∧
      (mkScoreData defaultLSConfig p u r o).roofScore ≤ 100) ∧
    (0 ≤ (mkScoreData defaultLSConfig p u r o).propertyScore ∧
      (mkScoreData defaultLSConfig p u r o).propertyScore ≤ 100) ∧
    (0 ≤ (mkScoreData defaultLSConfig p u r o).meteringScore ∧
      (mkScoreData defaultLSConfig p u r o).meteringScore ≤ 100) ∧
    (0 ≤ (mkScoreData defaultLSConfig p u r o).homeownerScore ∧
      (mkScoreData defaultLSConfig p u r o).homeownerScore ≤ 100) := by
  obtain ⟨e1, e2, e3, e4, e5⟩ := mkScoreData_components defaultLSConfig p u r o
  rw [e1, e2, e3, e4, e5]
  obtain ⟨r1, r2⟩ := calculateRoofScore_mem p r h
  obtain ⟨q1, q2⟩ := calculatePropertyScore_mem p
  obtain ⟨m1, m2⟩ := calculateNetMeteringScore_mem p u
  obtain ⟨w1, w2⟩ := calculateHomeownerScore_mem p o
  exact ⟨pyRound_mem _ (calculateBillScore_nonneg p u) (calculateBillScore_le_100 p u),
    pyRound_mem _ r1 r2, pyRound_mem _ q1 q2, pyRound_mem _ m1 m2, pyRound_mem _ w1 w2⟩

/-- C3 witness: the amended range invariant at a concrete input. -/
theorem claim_C3_witness :
    (0 ≤ (mkScoreData defaultLSConfig emptyProperty none none none).billScore ∧
      (mkScoreData defaultLSConfig emptyProperty none none none).billScore ≤ 100) ∧
    (0 ≤ (mkScoreData defaultLSConfig emptyProperty none none none).roofScore ∧
      (mkScoreData defaultLSConfig emptyProperty none none none).roofScore ≤ 100) ∧
    (0 ≤ (mkScoreData defaultLSConfig emptyProperty none none none).propertyScore ∧
      (mkScoreData defaultLSConfig emptyProperty none none none).propertyScore ≤ 100) ∧
    (0 ≤ (mkScoreData defaultLSConfig emptyProperty none none none).meteringScore ∧
      (mkScoreData defaultLSConfig emptyProperty none none none).meteringScore ≤ 100) ∧
    (0 ≤ (mkScoreData defaultLSConfig emptyProperty none none none).homeownerScore ∧
      (mkScoreData defaultLSConfig emptyProperty none none none).homeownerScore ≤ 100) :=
  claim_C3 emptyProperty none none none rfl

/-- C4 counterexample: with default weights and thresholds but both minimum
requirements set to 0, an input whose component scores are all 0 except a
blank-data neutral gives overall score 0 while disqualified = false, so the
equivalence fails for this engine configuration. -/
theorem claim_C4_cex :
    (mkScoreData zeroMinConfig emptyProperty (some blankUtility) (some roofZero)
      (some blankOwner)).overallScore = 0 ∧
    (mkScoreData zeroMinConfig emptyProperty (some blankUtility) (some roofZero)
      (some blankOwner)).disqualified = false := by
  norm_num [mkScoreData, calculateBillScore, billFallback, calculateRoofScore,
    calculatePropertyScore, propertyScoreRest, propertyTypeTerm, propertyValueTerm,
    calculateNetMeteringScore, meteringAvailTerm, meteringRateTerm,
    calculateHomeownerScore, contactTerm, doNotCallTerm, ownershipTerm,
    emptyProperty, blankUtility, roofZero, blankOwner, zeroMinConfig, defaultLSConfig,
    pyRound]

/-- C4 (amended): with the default configuration, the record returned on the
normal path has overall score 0 exactly when it is disqualified (with that
configuration both always hold, since every lead is disqualified). -/
theorem claim_C4 (p : PropertyData) (u : Option UtilityData) (r : Option RoofData)
    (o : Option OwnerData) :
    (mkScoreData defaultLSConfig p u r o).overallScore = 0 ↔
    (mkScoreData defaultLSConfig p u r o).disqualified = true :=
  iff_of_true (mkScoreData_default_disqualified p u r o).2
    (mkScoreData_default_disqualified p u r o).1

/-- Zip prefix "78701" matches no north-zone prefix. -/
lemma north_no_78701 : (northZips.any fun p => strStartsWith "78701" p) = false := by decide

/-- Zip prefix "78701" matches no central-zone prefix. -/
lemma central_no_78701 : (centralZips.any fun p => strStartsWith "78701" p) = false := by decide

/-- Zip "78701" matches the south-zone prefix "787". -/
lemma south_yes_78701 : (southZips.any fun p => strStartsWith "78701" p) = true := by decide

/-- The climate zone of ZIP 78701 is south (factor 1.15), not north. -/
lemma climateFactor_78701 : climateFactor "78701" = 1.15 := by
  simp only [climateFactor, climateZones, List.foldl_cons, List.foldl_nil,
    north_no_78701, central_no_78701, south_yes_78701]
  norm_num

/-- The empty ZIP string matches no climate zone at all. -/
lemma climateFactor_empty : climateFactor "" = 1 := by
  have hn : (northZips.any fun p => strStartsWith "" p) = false := by decide
  have hc : (centralZips.any fun p => strStartsWith "" p) = false := by decide
  have hs : (southZips.any fun p => strStartsWith "" p) = false := by decide
  simp only [climateFactor, climateZones, List.foldl_cons, List.foldl_nil, hn, hc, hs]
  norm_num

/-- A year built of 2015 is 6–15 years old for any current year 2021–2030,
giving the 0.9 age factor. -/
lemma ageFactor_2015 (cy : ℚ) (h1 : 2021 ≤ cy) (h2 : cy ≤ 2030) :
    ageFactor cy 2015 = 0.9 := by
  simp only [ageFactor]
  rw [if_pos (by norm_num : (2015 : ℚ) > 0), if_neg (by linarith), if_pos (by linarith)]

/-- Base usage at 2000 sq ft: medium tier interpolated. -/
lemma baseUsage_2000 : baseUsage 2000 = 13600 / 13 := by norm_num [baseUsage]

/-- The scenario bill at any current year 2021–2030. -/
lemma estimateBill_scenario (cy : ℚ) (h1 : 2021 ≤ cy) (h2 : cy ≤ 2030) :
    estimateMonthlyBill cy prop5 (some util5) (some 7) = 63342 / 325 := by
  have haf := ageFactor_2015 cy h1 h2
  simp only [estimateMonthlyBill, estimateMonthlyBillBody, prop5, util5, effectiveRate,
    Option.getD_some]
  rw [baseUsage_2000, haf, climateFactor_78701]
  norm_num [monthFactor, monthFactorTable, bedroomFactor]

/-- C5 counterexample: at the scenario input (current year 2026) the
estimator does not return the product the claim states — the one with
climate factor 1.0 — because ZIP 78701 carries the south-zone factor
1.15. -/
theorem claim_C5_cex :
    estimateMonthlyBill 2026 prop5 (some util5) (some 7) ≠
      13600 / 13 * (9 / 10) * 1 * 1 * (3 / 2) * (12 / 100) ∧
    climateFactor "78701" = 23 / 20 := by
  constructor
  · rw [estimateBill_scenario 2026 (by norm_num) (by norm_num)]
    norm_num
  · rw [climateFactor_78701]; norm_num

/-- C5 (amended): for the scenario property {2000 sq ft, built 2015, 3
bedrooms, ZIP 78701} with a $0.12/kWh rate in July, the bill is the product
base usage 13600/13 (medium tier interpolation) × age factor 0.9 × bedroom
factor 1.0 × climate factor 1.15 (ZIP prefix "787" is in the south zone) ×
month factor 1.5 × rate 0.12, for any current year between 2021 and 2030
(so that the home is 6–15 years old). -/
theorem claim_C5 (cy : ℚ) (h1 : 2021 ≤ cy) (h2 : cy ≤ 2030) :
    estimateMonthlyBill cy prop5 (some util5) (some 7) =
      13600 / 13 * (9 / 10) * 1 * (23 / 20) * (3 / 2) * (12 / 100) := by
  rw [estimateBill_scenario cy h1 h2]
  norm_num

/-- C5 witness: the amended scenario equation at current year 2026. -/
theorem claim_C5_witness :
    estimateMonthlyBill 2026 prop5 (some util5) (some 7) =
      13600 / 13 * (9 / 10) * 1 * (23 / 20) * (3 / 2) * (12 / 100) :=
  claim_C5 2026 (by norm_num) (by norm_num)

/-- The scenario roof's condition "good" scores 80. -/
lemma strLower_good : strLower "good" = "good" := by decide

/-- C6 counterexample: at 1000 sq ft of usable area the area score is 90
(the code ramps 800→80 and 1200→100), not the ≈87.5 the claim states. -/
theorem claim_C6_cex :
    roofAreaScore roof6 = 90 ∧ roofAreaScore roof6 ≠ 175 / 2 := by
  norm_num [roofAreaScore, roof6]

/-- C6 (amended): the scenario roof scores orientation 100, area 90,
shading 87.5 (rounded to 88 in the returned record), pitch 100, condition
80; the weighted overall score is 93 and the suitability is "excellent". -/
theorem claim_C6 :
    (analyzeRoofSuitability (some roof6)).overallScore = 93 ∧
    (analyzeRoofSuitability (some roof6)).suitability = some "excellent" ∧
    (analyzeRoofSuitability (some roof6)).components =
      some ⟨100, 90, 88, 100, 80⟩ := by
  norm_num [analyzeRoofSuitability, roofOrientationScore, roofAreaScore, roofShadingScore,
    roofPitchScore, roofConditionScore, orientationLookup, conditionLookup, strLower_good,
    roof6, pyRound, show ("good" : String) ≠ "excellent" from by decide]

/-- C7: a usable roof area of 399 sq ft scores 0 whatever the other fields
are, and zeroes the analyzer's overall score with suitability "unsuitable";
a usable area of exactly 1200 sq ft scores exactly 100. -/
theorem claim_C7 (rd : RoofData) :
    (rd.usableRoofArea = some 399 →
      roofAreaScore rd = 0 ∧
      (analyzeRoofSuitability (some rd)).overallScore = 0 ∧
      (analyzeRoofSuitability (some rd)).suitability = some "unsuitable") ∧
    (rd.usableRoofArea = some 1200 → roofAreaScore rd = 100) := by
  constructor
  · intro h
    have ha : roofAreaScore rd = 0 := by norm_num [roofAreaScore, h]
    refine ⟨ha, ?_, ?_⟩ <;> norm_num [analyzeRoofSuitability, ha, pyRound_zero]
  · intro h
    norm_num [roofAreaScore, h]

/-- C7 witness: the two halves at concrete roofs. -/
theorem claim_C7_witness :
    roofAreaScore roof399 = 0 ∧
    (analyzeRoofSuitability (some roof399)).overallScore = 0 ∧
    (analyzeRoofSuitability (some roof399)).suitability = some "unsuitable" ∧
    roofAreaScore roof1200 = 100 :=
  ⟨((claim_C7 roof399).1 rfl).1, ((claim_C7 roof399).1 rfl).2.1,
    ((claim_C7 roof399).1 rfl).2.2, (claim_C7 roof1200).2 rfl⟩

/-- Base usage on the interpolated small tier (0, 1200). -/
lemma baseUsage_eq_small (s : ℚ) (h0 : 0 < s) (h1 : s < 1200) :
    baseUsage s = 560 + (s - 800) / 400 * 140 := by
  simp only [baseUsage, if_pos h0, if_pos h1]
  norm_num

/-- Base usage on the medium tier [1200, 2500). -/
lemma baseUsage_eq_mid (s : ℚ) (h1 : 1200 ≤ s) (h2 : s < 2500) :
    baseUsage s = 800 + (s - 1200) / 1300 * 400 := by
  have h0 : s > 0 := by linarith
  simp only [baseUsage, if_pos h0, if_neg (not_lt.mpr h1), if_pos h2]
  norm_num

/-- Base usage on the large tier [2500, 3500). -/
lemma baseUsage_eq_large (s : ℚ) (h1 : 2500 ≤ s) (h2 : s < 3500) :
    baseUsage s = 1040 + (s - 2500) / 1000 * 520 := by
  have h0 : s > 0 := by linarith
  simp only [baseUsage, if_pos h0, if_neg (by linarith : ¬ s < 1200),
    if_neg (not_lt.mpr h1), if_pos h2]
  norm_num

/-- Base usage on the very-large tier [3500, ∞). -/
lemma baseUsage_eq_xl (s : ℚ) (h1 : 3500 ≤ s) :
    baseUsage s = 1280 + (s - 3500) / 1500 * 800 := by
  have h0 : s > 0 := by linarith
  simp only [baseUsage, if_pos h0, if_neg (by linarith : ¬ s < 1200),
    if_neg (by linarith : ¬ s < 2500), if_neg (not_lt.mpr h1)]
  norm_num

/-- Base usage at the 1200 boundary. -/
lemma baseUsage_at_1200 : baseUsage 1200 = 800 := by norm_num [baseUsage]

/-- Base usage at the 2500 boundary. -/
lemma baseUsage_at_2500 : baseUsage 2500 = 1040 := by norm_num [baseUsage]

/-- Base usage at the 3500 boundary. -/
lemma baseUsage_at_3500 : baseUsage 3500 = 1280 := by norm_num [baseUsage]

/-- Approaching 1200 sq ft from below, base usage stays at least 100 below
its value 800 at 1200 (the small-tier curve tops out at 700). -/
lemma jump_1200 : leftJumpAtLeast baseUsage 1200 100 := by
  refine ⟨1200, by norm_num, fun s hs1 hs2 => ?_⟩
  have h0 : 0 < s := by linarith
  rw [baseUsage_eq_small s h0 hs2, baseUsage_at_1200, abs_of_nonpos (by linarith)]
  linarith

/-- Approaching 2500 sq ft from below, base usage stays at least 100 above
its value 1040 at 2500 (the medium-tier curve nears 1200). -/
lemma jump_2500 : leftJumpAtLeast baseUsage 2500 100 := by
  refine ⟨100, by norm_num, fun s hs1 hs2 => ?_⟩
  rw [baseUsage_eq_mid s (by linarith) hs2, baseUsage_at_2500,
    abs_of_nonneg (by linarith)]
  linarith

/-- Approaching 3500 sq ft from below, base usage stays at least 100 above
its value 1280 at 3500 (the large-tier curve nears 1560). -/
lemma jump_3500 : leftJumpAtLeast baseUsage 3500 100 := by
  refine ⟨100, by norm_num, fun s hs1 hs2 => ?_⟩
  rw [baseUsage_eq_large s (by linarith) hs2, baseUsage_at_3500,
    abs_of_nonneg (by linarith)]
  linarith

/-- A function with a positive left jump at `b` is not left-continuous
there. -/
lemma jump_not_leftCont (f : ℚ → ℚ) (b g : ℚ) (hj : leftJumpAtLeast f b g)
    (hg : 0 < g) : ¬ leftContinuousAt f b := by
  intro hc
  obtain ⟨δj, hδj, Hj⟩ := hj
  obtain ⟨δ, hδ, H⟩ := hc g hg
  have hd : min δ δj ≤ δ := min_le_left _ _
  have hdj : min δ δj ≤ δj := min_le_right _ _
  have hmin : 0 < min δ δj := lt_min hδ hδj
  have h2 : b - min δ δj / 2 < b := by linarith
  have h1 : b - δ < b - min δ δj / 2 := by linarith
  have h3 : b - δj < b - min δ δj / 2 := by linarith
  exact absurd (H _ h1 h2) (not_lt.mpr (Hj _ h3 h2))

/-- The age factor is always positive. -/
lemma ageFactor_pos (cy yb : ℚ) : 0 < ageFactor cy yb := by
  simp only [ageFactor]; split_ifs <;> norm_num

/-- The bedroom factor is always positive. -/
lemma bedroomFactor_pos (b : ℚ) : 0 < bedroomFactor b := by
  simp only [bedroomFactor]; split_ifs <;> norm_num

set_option maxHeartbeats 1000000 in
/-- Every monthly factor is positive. -/
lemma monthFactorTable_pos (m : ℤ) : 0 < monthFactorTable m := by
  simp only [monthFactorTable]; split_ifs <;> norm_num

/-- The seasonal factor is always positive. -/
lemma monthFactor_pos (m : Option ℤ) : 0 < monthFactor m := by
  cases m with
  | none => norm_num [monthFactor]
  | some mm =>
    simp only [monthFactor]
    split_ifs
    · exact monthFactorTable_pos mm
    · norm_num

/-- The climate factor is always positive. -/
lemma climateFactor_pos (z : String) : 0 < climateFactor z := by
  simp only [climateFactor, climateZones, List.foldl_cons, List.foldl_nil]
  split_ifs <;> norm_num

/-- Within one size tier, base usage is strictly increasing (for positive
square footage, where the interpolation branch applies). -/
lemma baseUsage_lt_of_sameTier (s1 s2 : ℚ) (h0 : 0 < s1) (h12 : s1 < s2)
    (ht : sizeTier s1 = sizeTier s2) : baseUsage s1 < baseUsage s2 := by
  have h02 : 0 < s2 := lt_trans h0 h12
  rcases lt_or_le s1 1200 with hA | hA
  · have hts1 : sizeTier s1 = 0 := by simp only [sizeTier, if_pos hA]
    have hts2 : sizeTier s2 = 0 := by rw [← ht, hts1]
    have hs2 : s2 < 1200 := by
      by_contra hB
      simp only [sizeTier, if_neg hB] at hts2
      split_ifs at hts2 <;> omega
    rw [baseUsage_eq_small s1 h0 hA, baseUsage_eq_small s2 h02 hs2]
    linarith
  · rcases lt_or_le s1 2500 with hB | hB
    · have hts1 : sizeTier s1 = 1 := by
        simp only [sizeTier, if_neg (not_lt.mpr hA), if_pos hB]
      have hts2 : sizeTier s2 = 1 := by rw [← ht, hts1]
      have hs2a : ¬ s2 < 1200 := by
        intro hC
        simp only [sizeTier, if_pos hC] at hts2
        omega
      have hs2b : s2 < 2500 := by
        by_contra hC
        simp only [sizeTier, if_neg hs2a, if_neg hC] at hts2
        split_ifs at hts2 <;> omega
      rw [baseUsage_eq_mid s1 hA hB, baseUsage_eq_mid s2 (not_lt.mp hs2a) hs2b]
      linarith
    · rcases lt_or_le s1 3500 with hC | hC
      · have hts1 : sizeTier s1 = 2 := by
          simp only [sizeTier, if_neg (by linarith : ¬ s1 < 1200),
            if_neg (not_lt.mpr hB), if_pos hC]
        have hts2 : sizeTier s2 = 2 := by rw [← ht, hts1]
        have hs2a : ¬ s2 < 2500 := by
          intro hD
          simp only [sizeTier] at hts2
          split_ifs at hts2 <;> omega
        have hs2b : s2 < 3500 := by
          by_contra hD
          simp only [sizeTier, if_neg (by linarith : ¬ s2 < 1200), if_neg hs2a,
            if_neg hD] at hts2
          omega
        rw [baseUsage_eq_large s1 hB hC, baseUsage_eq_large s2 (not_lt.mp hs2a) hs2b]
        linarith
      · rw [baseUsage_eq_xl s1 hC, baseUsage_eq_xl s2 (by linarith)]
        linarith

/-- The estimator is the product of base usage, the four factors and the
rate. -/
lemma estimateMonthlyBill_eq (cy : ℚ) (p : PropertyData) (u : Option UtilityData)
    (m : Option ℤ) :
    estimateMonthlyBill cy p u m =
      baseUsage (p.squareFootage.getD 0) * ageFactor cy (p.yearBuilt.getD 2000) *
      bedroomFactor (p.bedrooms.getD 3) * climateFactor (p.zipCode.getD "") *
      monthFactor m * effectiveRate u := rfl

/-- C8 counterexample: the base-usage curve is not left-continuous at all
three tier boundaries: already at 1200 sq ft the small-tier values stay
below 700 while the boundary value is 800. -/
theorem claim_C8_cex :
    ¬ (leftContinuousAt baseUsage 1200 ∧ leftContinuousAt baseUsage 2500 ∧
        leftContinuousAt baseUsage 3500) :=
  fun h => jump_not_leftCont baseUsage 1200 100 jump_1200 (by norm_num) h.1

/-- C8 (amended): the base-usage function jumps by at least 100 kWh at each
tier boundary — its left-hand values near 1200/2500/3500 stay at distance
≥ 100 from the boundary values 800/1040/1280 — so it is left-continuous at
none of them. -/
theorem claim_C8 :
    (leftJumpAtLeast baseUsage 1200 100 ∧ ¬ leftContinuousAt baseUsage 1200) ∧
    (leftJumpAtLeast baseUsage 2500 100 ∧ ¬ leftContinuousAt baseUsage 2500) ∧
    (leftJumpAtLeast baseUsage 3500 100 ∧ ¬ leftContinuousAt baseUsage 3500) :=
  ⟨⟨jump_1200, jump_not_leftCont _ _ _ jump_1200 (by norm_num)⟩,
   ⟨jump_2500, jump_not_leftCont _ _ _ jump_2500 (by norm_num)⟩,
   ⟨jump_3500, jump_not_leftCont _ _ _ jump_3500 (by norm_num)⟩⟩

/-- C9 counterexample: 0 and 600 sq ft both lie in the small tier and the
rate is positive, yet the estimated bill at 0 sq ft (84, from the flat
700 kWh tier base — the interpolation branch requires positive square
footage) exceeds the bill at 600 sq ft (58.8). -/
theorem claim_C9_cex :
    sizeTier 0 = sizeTier 600 ∧ (0 : ℚ) < 600 ∧ 0 < effectiveRate (some util5) ∧
    estimateMonthlyBill 2026 prop9a (some util5) none = 84 ∧
    estimateMonthlyBill 2026 prop9b (some util5) none = 294 / 5 ∧
    ¬ (estimateMonthlyBill 2026 prop9a (some util5) none <
        estimateMonthlyBill 2026 prop9b (some util5) none) := by
  have e1 : estimateMonthlyBill 2026 prop9a (some util5) none = 84 := by
    rw [estimateMonthlyBill_eq]
    simp only [prop9a, Option.getD_some, Option.getD_none]
    rw [climateFactor_empty]
    norm_num [baseUsage, baseConsumptionOf, ageFactor, bedroomFactor, monthFactor,
      effectiveRate, util5]
  have e2 : estimateMonthlyBill 2026 prop9b (some util5) none = 294 / 5 := by
    rw [estimateMonthlyBill_eq]
    simp only [prop9b, Option.getD_some, Option.getD_none]
    rw [climateFactor_empty, baseUsage_eq_small 600 (by norm_num) (by norm_num)]
    norm_num [ageFactor, bedroomFactor, monthFactor, effectiveRate, util5]
  refine ⟨by norm_num [sizeTier], by norm_num, by norm_num [effectiveRate, util5],
    e1, e2, ?_⟩
  rw [e1, e2]
  norm_num

/-- C9 (amended): for positive square footages in the same size tier, with
every other input held fixed and a positive effective rate, the estimated
monthly bill is strictly increasing in square footage. -/
theorem claim_C9 (s1 s2 cy : ℚ) (p : PropertyData) (u : Option UtilityData)
    (m : Option ℤ) (h0 : 0 < s1) (h12 : s1 < s2) (ht : sizeTier s1 = sizeTier s2)
    (hr : 0 < effectiveRate u) :
    estimateMonthlyBill cy { p with squareFootage := some s1 } u m <
      estimateMonthlyBill cy { p with squareFootage := some s2 } u m := by
  rw [estimateMonthlyBill_eq, estimateMonthlyBill_eq]
  dsimp only
  simp only [Option.getD_some]
  have hB := baseUsage_lt_of_sameTier s1 s2 h0 h12 ht
  have hK : 0 < ageFactor cy (p.yearBuilt.getD 2000) * bedroomFactor (p.bedrooms.getD 3) *
      climateFactor (p.zipCode.getD "") * monthFactor m * effectiveRate u :=
    mul_pos (mul_pos (mul_pos (mul_pos (ageFactor_pos _ _) (bedroomFactor_pos _))
      (climateFactor_pos _)) (monthFactor_pos m)) hr
  have e : ∀ B : ℚ, B * ageFactor cy (p.yearBuilt.getD 2000) *
      bedroomFactor (p.bedrooms.getD 3) * climateFactor (p.zipCode.getD "") *
      monthFactor m * effectiveRate u =
      B * (ageFactor cy (p.yearBuilt.getD 2000) * bedroomFactor (p.bedrooms.getD 3) *
        climateFactor (p.zipCode.getD "") * monthFactor m * effectiveRate u) :=
    fun B => by ring
  rw [e, e]
  exact mul_lt_mul_of_pos_right hB hK

/-- C9 witness: the amended monotonicity at 1300 < 1400 sq ft (medium
tier). -/
theorem claim_C9_witness :
    estimateMonthlyBill 2026 { emptyProperty with squareFootage := some 1300 }
        (some util5) none <
      estimateMonthlyBill 2026 { emptyProperty with squareFootage := some 1400 }
        (some util5) none :=
  claim_C9 1300 1400 2026 emptyProperty (some util5) none (by norm_num) (by norm_num)
    (by norm_num [sizeTier]) (by norm_num [effectiveRate, util5])

/-- C10: neither public entry point propagates a failure of its body: the
estimator returns the body's value or 0 on an exception, and the scorer
returns the body's record or the error record {overall_score 0,
qualification "error", message kept}. -/
theorem claim_C10 (cy : ℚ) (p : PropertyData) (u : Option UtilityData) (m : Option ℤ)
    (cfg : LSConfig) (p2 : PropertyData) (u2 : Option UtilityData) (r2 : Option RoofData)
    (o2 : Option OwnerData) :
    ((∃ v, estimateMonthlyBillBody cy p u m = Except.ok v ∧
        estimateMonthlyBill cy p u m = v) ∨
     (∃ e, estimateMonthlyBillBody cy p u m = Except.error e ∧
        estimateMonthlyBill cy p u m = 0)) ∧
    ((∃ d, calculateOverallScoreBody cfg p2 u2 r2 o2 = Except.ok d ∧
        calculateOverallScore cfg p2 u2 r2 o2 = LeadResult.success d) ∨
     (∃ e, calculateOverallScoreBody cfg p2 u2 r2 o2 = Except.error e ∧
        calculateOverallScore cfg p2 u2 r2 o2 =
          LeadResult.failure (p2.propertyId.getD "unknown") 0 "error" e)) :=
  ⟨Or.inl ⟨_, rfl, rfl⟩, Or.inl ⟨_, rfl, rfl⟩⟩

end SolarLeads
